import Mathlib

/-!
Verification of the Kafka lifecycle service of kas-fleet-manager
(`src/unnamed/part_000`, package `services`, lines 159-810) as a shallow
embedding.  The relational store is modelled as a list of `KafkaRequest`
rows (a soft delete sets `deletedAt`); every fallible external
collaborator (quota authority, placement service, identity registry, DNS
authority) is passed in as an `Except`-valued oracle; external calls and
metric emissions are reported in an event trace.
-/

namespace KasFleetManager

/-- Modelled from the spec: the status enumeration of §4.5
(`constants.KafkaRequestStatus*`, referenced from the source but declared
outside the provided files). -/
inductive KafkaStatus
  | accepted
  | preparing
  | provisioning
  | ready
  | failed
  | deprovision
  | deleting
deriving DecidableEq, Repr

/-- Modelled from the spec: the string value of a status
(`constants.KafkaStatus.String()`), the lowercase name of the state. -/
def KafkaStatus.str : KafkaStatus → String
  | .accepted => "accepted"
  | .preparing => "preparing"
  | .provisioning => "provisioning"
  | .ready => "ready"
  | .failed => "failed"
  | .deprovision => "deprovision"
  | .deleting => "deleting"

/-- Modelled from the spec: the error taxonomy of §7 (`pkg/errors`,
referenced from the source but declared outside the provided files).
Messages and wrapped causes are dropped; only the error category is kept. -/
inductive ServiceError
  | general
  | tooManyKafkaInstancesReached
  | insufficientQuota
  | failedToCheckQuota
  | failedToCreateSSOClient
  | validation
  | notFound
deriving DecidableEq, Repr

/-- Embeds `api.KafkaRequest` (the resource record of §3): the fields the
lifecycle service reads or writes.  `deletedAt` is the gorm soft-delete
timestamp; a row with `deletedAt ≠ none` is excluded from every query. -/
structure KafkaRequest where
  id : String
  owner : String
  organisationId : String
  name : String
  placementId : String
  region : String
  clusterID : String
  bootstrapServerHost : String
  ssoClientID : String
  ssoClientSecret : String
  status : String
  version : String
  createdAt : Int
  deletedAt : Option Int
deriving DecidableEq, Repr

/-- The zero value of `api.KafkaRequest`: every field at its Go zero value. -/
def blankKafkaRequest : KafkaRequest :=
  { id := "", owner := "", organisationId := "", name := "", placementId := ""
    region := "", clusterID := "", bootstrapServerHost := "", ssoClientID := ""
    ssoClientSecret := "", status := "", version := "", createdAt := 0
    deletedAt := none }

/-- Embeds `config.KafkaCapacityConfig.MaxCapacity` (an int64 in Go). -/
structure KafkaCapacityConfig where
  maxCapacity : Int
deriving DecidableEq, Repr

/-- Embeds `config.KafkaLifespanConfig.LongLivedKafkas`: ids exempt from
age-based deprovisioning. -/
structure KafkaLifespanConfig where
  longLivedKafkas : List String
deriving DecidableEq, Repr

/-- Embeds the fields of `config.KafkaConfig` the service reads. -/
structure KafkaConfig where
  kafkaCapacity : KafkaCapacityConfig
  enableQuotaService : Bool
  defaultKafkaVersion : String
  enableKafkaExternalCertificate : Bool
  kafkaDomainName : String
  numOfBrokers : Nat
  kafkaLifespan : KafkaLifespanConfig
deriving DecidableEq, Repr

/-- Embeds the field of `config.KeycloakConfig` the service reads. -/
structure KeycloakConfig where
  enableAuthenticationOnKafka : Bool
deriving DecidableEq, Repr

/-- Embeds `route53.ResourceRecord`. -/
structure ResourceRecord where
  value : String
deriving DecidableEq, Repr

/-- Embeds `route53.ResourceRecordSet` (fields `Name`, `Type`, `TTL`,
`ResourceRecords`; `Type` is renamed `rrType` because `type` clashes in
Lean). -/
structure ResourceRecordSet where
  name : String
  rrType : String
  ttl : Int
  resourceRecords : List ResourceRecord
deriving DecidableEq, Repr

/-- Embeds `route53.Change`. -/
structure Change where
  action : String
  resourceRecordSet : ResourceRecordSet
deriving DecidableEq, Repr

/-- Embeds `route53.ChangeBatch`. -/
structure ChangeBatch where
  changes : List Change
deriving DecidableEq, Repr

/-- An observable external call or metric emission made by the service. -/
inductive ExtEvent
  | dnsChange (zone : String) (batch : ChangeBatch)
  | ssoRegister (clientId : String) (orgId : String)
  | ssoDeregister (clientId : String)
  | metricTotalDeprovision
  | metricSuccessDeprovision
  | metricTotalDelete
  | metricSuccessDelete
  | metricStatusSinceCreated (status : String) (id : String) (clusterId : String)
deriving DecidableEq, Repr

/-- Embeds `kafkaDeletionStatuses` (line 191): the two deletion statuses,
in source order. -/
def kafkaDeletionStatuses : List String :=
  [KafkaStatus.deleting.str, KafkaStatus.deprovision.str]

/-- Modelled from the spec: `constants.DefaultIngressDnsNamePrefix`, the
well-known default ingress DNS prefix of §4.3 (declared outside the
provided files). -/
def defaultIngressDnsNameStart : String := "apps"

/-- Modelled from the spec: `constants.ManagedKafkaIngressDnsNamePrefix`,
the fleet's managed-ingress prefix of §4.3 (declared outside the provided
files). -/
def managedKafkaIngressDnsNameStart : String := "mk"

/-- Replace the first occurrence of `pattern` by `repl` in a character
list; no occurrence leaves the list unchanged. -/
def replaceOnceAux (pattern repl : List Char) : List Char → List Char
  | [] => []
  | c :: rest =>
    if pattern.isPrefixOf (c :: rest) then
      repl ++ (c :: rest).drop pattern.length
    else
      c :: replaceOnceAux pattern repl rest

/-- Embeds Go `strings.Replace(s, pattern, repl, 1)`: replace the first
occurrence of `pattern`; an empty pattern inserts `repl` at the start. -/
def replaceOnce (s pattern repl : String) : String :=
  if pattern.isEmpty then repl ++ s
  else String.mk (replaceOnceAux pattern.data repl.data s.data)

/-- The rows visible to queries: gorm's default scope excludes
soft-deleted rows. -/
def liveRows (db : List KafkaRequest) : List KafkaRequest :=
  db.filter fun r => r.deletedAt.isNone

/-- The count taken by `HasAvailableCapacity` (lines 252-262): all live
rows of the kafka table. -/
def countLive (db : List KafkaRequest) : Nat :=
  (liveRows db).length

/-- Embeds `HasAvailableCapacity` (lines 252-262).  The store is modelled
as always reachable, so the error branch of the Go count does not arise. -/
def hasAvailableCapacity (cfg : KafkaConfig) (db : List KafkaRequest) : Bool :=
  decide ((countLive db : Int) < cfg.kafkaCapacity.maxCapacity)

/-- Embeds gorm `Save`: update the row with the same primary key when one
exists, insert otherwise. -/
def save (db : List KafkaRequest) (req : KafkaRequest) : List KafkaRequest :=
  if db.any fun r => r.id == req.id then
    db.map fun r => if r.id = req.id then req else r
  else
    db ++ [req]

/-- Embeds `RegisterKafkaJob` (lines 265-293).  `quotaResult` stands for
the quota authority call
`ReserveQuota(productId, clusterID, uuid, owner, false, "single")`:
`Except.ok allowed` on a completed call, `Except.error ()` when the
authority call itself fails. -/
def registerKafkaJob (cfg : KafkaConfig) (quotaResult : Except Unit Bool)
    (db : List KafkaRequest) (req : KafkaRequest) :
    Option ServiceError × List KafkaRequest × List ExtEvent :=
  if !hasAvailableCapacity cfg db then
    (some ServiceError.tooManyKafkaInstancesReached, db, [])
  else
    let quotaStep : Option ServiceError :=
      if cfg.enableQuotaService then
        match quotaResult with
        | Except.error _ => some ServiceError.failedToCheckQuota
        | Except.ok false => some ServiceError.insufficientQuota
        | Except.ok true => none
      else none
    match quotaStep with
    | some e => (some e, db, [])
    | none =>
      let req2 := { req with
        version := cfg.defaultKafkaVersion
        status := KafkaStatus.accepted.str }
      (none, save db req2,
        [ExtEvent.metricStatusSinceCreated KafkaStatus.accepted.str req2.id req2.clusterID])

/-- Embeds `GetById` (lines 394-405): validation error on an empty id,
first live row with that id otherwise (`handleGetError` maps an absent
row to a not-found error). -/
def getById (db : List KafkaRequest) (id : String) :
    Except ServiceError KafkaRequest :=
  if id = "" then Except.error ServiceError.validation
  else
    match (liveRows db).find? (fun r => r.id == id) with
    | none => Except.error ServiceError.notFound
    | some r => Except.ok r

/-- Embeds `UpdateStatus` (lines 639-661).  Returns
`((attempted, error), newDb)`. -/
def updateStatus (db : List KafkaRequest) (id : String) (status : KafkaStatus) :
    (Bool × Option ServiceError) × List KafkaRequest :=
  match getById db id with
  | Except.error _ => ((true, some ServiceError.general), db)
  | Except.ok kafka =>
    if kafka.status = KafkaStatus.deprovision.str ∧ status ≠ KafkaStatus.deleting then
      ((false, some ServiceError.general), db)
    else if kafka.status = status.str then
      ((false, some ServiceError.general), db)
    else
      ((true, none),
        db.map fun r =>
          if r.id = id ∧ r.deletedAt.isNone then { r with status := status.str } else r)

/-- Embeds gorm `Updates` with a struct argument: only non-zero fields of
`upd` are written; the primary key is never updated. -/
def applyNonZeroFields (row upd : KafkaRequest) : KafkaRequest :=
  { row with
    owner := if upd.owner = "" then row.owner else upd.owner
    organisationId := if upd.organisationId = "" then row.organisationId else upd.organisationId
    name := if upd.name = "" then row.name else upd.name
    placementId := if upd.placementId = "" then row.placementId else upd.placementId
    region := if upd.region = "" then row.region else upd.region
    clusterID := if upd.clusterID = "" then row.clusterID else upd.clusterID
    bootstrapServerHost := if upd.bootstrapServerHost = "" then row.bootstrapServerHost else upd.bootstrapServerHost
    ssoClientID := if upd.ssoClientID = "" then row.ssoClientID else upd.ssoClientID
    ssoClientSecret := if upd.ssoClientSecret = "" then row.ssoClientSecret else upd.ssoClientSecret
    status := if upd.status = "" then row.status else upd.status
    version := if upd.version = "" then row.version else upd.version
    createdAt := if upd.createdAt = 0 then row.createdAt else upd.createdAt }

/-- Embeds `Update` (lines 627-637): a field-scoped update of the row
with `req`'s id, skipped entirely for rows whose status is a deletion
status (`status not IN kafkaDeletionStatuses`). -/
def update (db : List KafkaRequest) (req : KafkaRequest) :
    Option ServiceError × List KafkaRequest :=
  (none,
    db.map fun r =>
      if r.id = req.id ∧ r.deletedAt.isNone ∧ r.status ∉ kafkaDeletionStatuses then
        applyNonZeroFields r req
      else r)

/-- Embeds `buildResourceRecordChange` (lines 790-809). -/
def buildResourceRecordChange (recordName clusterIngress action : String) : Change :=
  { action := action
    resourceRecordSet :=
      { name := recordName
        rrType := "CNAME"
        ttl := 300
        resourceRecords := [{ value := clusterIngress }] } }

/-- Embeds `buildKafkaClusterCNAMESRecordBatch` (lines 771-788): one
change for the bootstrap name, one for the admin-server name, one per
broker, all pointing at `elb.<clusterIngress>`. -/
def buildKafkaClusterCNAMESRecordBatch (recordName clusterIngress action : String)
    (cfg : KafkaConfig) : ChangeBatch :=
  let elbIngress := "elb." ++ clusterIngress
  { changes :=
      [buildResourceRecordChange recordName elbIngress action,
       buildResourceRecordChange ("admin-server-" ++ recordName) elbIngress action]
      ++ (List.range cfg.numOfBrokers).map fun i =>
        buildResourceRecordChange ("broker-" ++ toString i ++ "-" ++ recordName)
          elbIngress action }

/-- Embeds `ChangeKafkaCNAMErecords` (lines 663-682).  `dnsResult` stands
for the AWS client creation plus batch submission; the built batch is
recorded as a `dnsChange` event against the fleet's DNS zone. -/
def changeKafkaCNAMErecords (cfg : KafkaConfig) (dnsResult : Except Unit Unit)
    (bootstrapServerHost clusterDNS action : String) :
    Option ServiceError × List ExtEvent :=
  let batch := buildKafkaClusterCNAMESRecordBatch bootstrapServerHost clusterDNS action cfg
  match dnsResult with
  | Except.error _ => (some ServiceError.general, [ExtEvent.dnsChange cfg.kafkaDomainName batch])
  | Except.ok _ => (none, [ExtEvent.dnsChange cfg.kafkaDomainName batch])

/-- Modelled from the spec: `BuildKeycloakClientNameIdentifier`, the
identity client named deterministically from the resource id (§4.3;
declared outside the provided files). -/
def buildKeycloakClientNameIdentifier (kafkaId : String) : String :=
  "kafka-" ++ kafkaId

/-- Embeds `PrepareKafkaRequest` (lines 295-343).  `normalizeResult`
stands for `buildTruncateKafkaIdentifier` plus `replaceHostSpecialChar`
(declared outside the provided files, §4.3: a hard error when the host is
not valid after normalization); `clusterDNSResult` for
`GetClusterDNS(clusterID)`; `ssoResult` for
`RegisterKafkaClientInSSO(clientId, orgId)` (the returned secret);
`dnsResult` for the DNS submission. -/
def prepareKafkaRequest (cfg : KafkaConfig) (kcfg : KeycloakConfig)
    (normalizeResult : Except Unit String) (clusterDNSResult : Except Unit String)
    (ssoResult : Except Unit String) (dnsResult : Except Unit Unit)
    (db : List KafkaRequest) (req : KafkaRequest) :
    Option ServiceError × List KafkaRequest × List ExtEvent :=
  match normalizeResult with
  | Except.error _ => (some ServiceError.general, db, [])
  | Except.ok truncatedKafkaIdentifier =>
    match clusterDNSResult with
    | Except.error _ => (some ServiceError.general, db, [])
    | Except.ok rawClusterDNS =>
      let clusterDNS :=
        replaceOnce rawClusterDNS defaultIngressDnsNameStart managedKafkaIngressDnsNameStart
      let certStep : Option ServiceError × String × List ExtEvent :=
        if cfg.enableKafkaExternalCertificate then
          let host := truncatedKafkaIdentifier ++ "." ++ cfg.kafkaDomainName
          match changeKafkaCNAMErecords cfg dnsResult host clusterDNS "CREATE" with
          | (some e, evs) => (some e, host, evs)
          | (none, evs) => (none, host, evs)
        else (none, truncatedKafkaIdentifier ++ "." ++ clusterDNS, [])
      match certStep with
      | (some e, _, evs) => (some e, db, evs)
      | (none, bootstrapServerHost, evs) =>
        let ssoStep : Option ServiceError × String × String × List ExtEvent :=
          if kcfg.enableAuthenticationOnKafka then
            let clientId := buildKeycloakClientNameIdentifier req.id
            match ssoResult with
            | Except.error _ =>
              (some ServiceError.failedToCreateSSOClient, clientId, "",
                [ExtEvent.ssoRegister clientId req.organisationId])
            | Except.ok secret =>
              (none, clientId, secret, [ExtEvent.ssoRegister clientId req.organisationId])
          else (none, "", "", [])
        match ssoStep with
        | (some e, _, _, evs2) => (some e, db, evs ++ evs2)
        | (none, ssoClientID, ssoClientSecret, evs2) =>
          let updatedKafkaRequest : KafkaRequest :=
            { blankKafkaRequest with
              id := req.id
              bootstrapServerHost := bootstrapServerHost
              ssoClientID := ssoClientID
              ssoClientSecret := ssoClientSecret
              status := KafkaStatus.provisioning.str }
          match update db updatedKafkaRequest with
          | (some _, db2) => (some ServiceError.general, db2, evs ++ evs2)
          | (none, db2) => (none, db2, evs ++ evs2)

/-- Embeds `Delete` (lines 493-530): for a record with an assigned
cluster, first deregister the identity client (when auth-on-resource is
enabled), then remove the DNS records (when external-certificate mode is
enabled); only then soft-delete the row and emit the delete metrics.
`ssoDeregResult` stands for `DeRegisterClientInSSO`, `clusterDNSResult`
for `GetClusterDNS`, `dnsResult` for the DNS submission. -/
def deleteKafka (cfg : KafkaConfig) (kcfg : KeycloakConfig)
    (clusterDNSResult : Except Unit String) (ssoDeregResult : Except Unit Unit)
    (dnsResult : Except Unit Unit) (now : Int)
    (db : List KafkaRequest) (req : KafkaRequest) :
    Option ServiceError × List KafkaRequest × List ExtEvent :=
  let finish := fun (evs : List ExtEvent) =>
    ((none : Option ServiceError),
      db.map fun r =>
        if r.id = req.id ∧ r.deletedAt.isNone then { r with deletedAt := some now } else r,
      evs ++ [ExtEvent.metricTotalDelete, ExtEvent.metricSuccessDelete])
  if req.clusterID = "" then finish []
  else
    let ssoStep : Option ServiceError × List ExtEvent :=
      if kcfg.enableAuthenticationOnKafka then
        let clientId := buildKeycloakClientNameIdentifier req.id
        match ssoDeregResult with
        | Except.error _ => (some ServiceError.general, [ExtEvent.ssoDeregister clientId])
        | Except.ok _ => (none, [ExtEvent.ssoDeregister clientId])
      else (none, [])
    match ssoStep with
    | (some e, evs) => (some e, db, evs)
    | (none, evs1) =>
      if cfg.enableKafkaExternalCertificate then
        match clusterDNSResult with
        | Except.error _ => (some ServiceError.general, db, evs1)
        | Except.ok rawClusterDNS =>
          let clusterDNS :=
            replaceOnce rawClusterDNS defaultIngressDnsNameStart managedKafkaIngressDnsNameStart
          match changeKafkaCNAMErecords cfg dnsResult req.bootstrapServerHost clusterDNS "DELETE" with
          | (some e, evs2) => (some e, db, evs1 ++ evs2)
          | (none, evs2) => finish (evs1 ++ evs2)
      else finish evs1

/-- Embeds `RegisterKafkaDeprovisionJob` (lines 408-439): owner-scoped
fetch, total-operations metric, then the §4.5 status transition; success
metrics only when the transition executed without error.  `user` is the
username resolved from the request context. -/
def registerKafkaDeprovisionJob (db : List KafkaRequest) (user : String) (id : String) :
    Option ServiceError × List KafkaRequest × List ExtEvent :=
  if id = "" then (some ServiceError.validation, db, [])
  else
    match (liveRows db).find? (fun r => r.id == id && r.owner == user) with
    | none => (some ServiceError.notFound, db, [])
    | some kafkaRequest =>
      let evs0 := [ExtEvent.metricTotalDeprovision]
      match updateStatus db id KafkaStatus.deprovision with
      | ((executed, errOpt), db2) =>
        if executed then
          match errOpt with
          | some _ => (some ServiceError.general, db, evs0)
          | none =>
            (none, db2,
              evs0 ++ [ExtEvent.metricSuccessDeprovision,
                ExtEvent.metricStatusSinceCreated KafkaStatus.deprovision.str
                  kafkaRequest.id kafkaRequest.clusterID])
        else (none, db2, evs0)

/-- Embeds `DeprovisionExpiredKafkas` (lines 465-491): bulk status update
to Deprovision for live rows created at or before
`now - kafkaAgeInHours` hours, not already in a deletion status, and — when
the long-lived exemption list is non-empty — not in that list.  Timestamps
are in seconds. -/
def deprovisionExpiredKafkas (cfg : KafkaConfig) (now : Int) (kafkaAgeInHours : Int)
    (db : List KafkaRequest) :
    Option ServiceError × List KafkaRequest × List ExtEvent :=
  let cutoff := now - kafkaAgeInHours * 3600
  let eligible := fun (r : KafkaRequest) =>
    r.deletedAt.isNone ∧ r.createdAt ≤ cutoff ∧ r.status ∉ kafkaDeletionStatuses ∧
      (if 0 < cfg.kafkaLifespan.longLivedKafkas.length then
        r.id ∉ cfg.kafkaLifespan.longLivedKafkas
      else True)
  let rowsAffected := db.countP fun r => decide (eligible r)
  (none,
    db.map fun r =>
      if eligible r then { r with status := KafkaStatus.deprovision.str } else r,
    (List.replicate rowsAffected
      [ExtEvent.metricTotalDeprovision, ExtEvent.metricSuccessDeprovision]).flatten)

/-! ### Helper lemmas -/

/-- A bootstrap host `a ++ "." ++ b` is never the empty string, so gorm
`Updates` always writes it. -/
theorem append_dot_ne_empty (a b : String) : a ++ "." ++ b ≠ "" := by
  intro h
  have h2 : (a ++ "." ++ b).length = 0 := by rw [h]; rfl
  rw [String.length_append, String.length_append] at h2
  have h3 : ("." : String).length = 1 := rfl
  omega

/-- `Update` leaves any row whose status is a deletion status untouched,
at its position. -/
theorem update_keeps_deletion_row (db : List KafkaRequest) (u : KafkaRequest)
    (i : Nat) (r : KafkaRequest) (hr : db[i]? = some r)
    (hs : r.status ∈ kafkaDeletionStatuses) :
    (update db u).2[i]? = some r := by
  unfold update
  simp only [List.getElem?_map, hr, Option.map_some']
  rw [if_neg]
  intro h
  exact h.2.2 hs

/-- The store returned by `PrepareKafkaRequest` is either the input store
(a failure path) or the result of the final field-scoped `Update`. -/
theorem prepare_db_cases (cfg : KafkaConfig) (kcfg : KeycloakConfig)
    (nres dres sres : Except Unit String) (dnsres : Except Unit Unit)
    (db : List KafkaRequest) (req : KafkaRequest) :
    (prepareKafkaRequest cfg kcfg nres dres sres dnsres db req).2.1 = db
    ∨ ∃ u, (prepareKafkaRequest cfg kcfg nres dres sres dnsres db req).2.1 = (update db u).2 := by
  unfold prepareKafkaRequest
  rcases nres with e | n
  · left; rfl
  rcases dres with e | d
  · left; rfl
  dsimp only
  split
  · left; rfl
  · split
    · left; rfl
    · split <;> rename_i heq3 <;>
        exact Or.inr ⟨_, (congrArg Prod.snd heq3).symm⟩

/-! ### Claims -/

/-- C6. For every bootstrap record name, cluster ingress, action and
configured broker count `n`, the CNAME change batch holds exactly `n + 2`
changes — the bootstrap name, the admin-server-prefixed name and one
broker-`<i>`-prefixed name per broker, in that order — each of type CNAME
with TTL 300 and record value `elb.<clusterIngress>`. -/
theorem buildKafkaClusterCNAMESRecordBatch_shape
    (recordName clusterIngress action : String) (cfg : KafkaConfig) :
    (buildKafkaClusterCNAMESRecordBatch recordName clusterIngress action cfg).changes.length
      = cfg.numOfBrokers + 2
    ∧ (buildKafkaClusterCNAMESRecordBatch recordName clusterIngress action cfg).changes.map
        (fun c => c.resourceRecordSet.name) =
        [recordName, "admin-server-" ++ recordName]
          ++ (List.range cfg.numOfBrokers).map
            (fun i => "broker-" ++ toString i ++ "-" ++ recordName)
    ∧ ∀ c ∈ (buildKafkaClusterCNAMESRecordBatch recordName clusterIngress action cfg).changes,
        c.action = action ∧ c.resourceRecordSet.rrType = "CNAME"
          ∧ c.resourceRecordSet.ttl = 300
          ∧ c.resourceRecordSet.resourceRecords = [{ value := "elb." ++ clusterIngress }] := by
  refine ⟨?_, ?_, ?_⟩
  · simp [buildKafkaClusterCNAMESRecordBatch]
  · simp [buildKafkaClusterCNAMESRecordBatch, buildResourceRecordChange]
  · intro c hc
    have hshape : ∃ nm, c = buildResourceRecordChange nm ("elb." ++ clusterIngress) action := by
      simp only [buildKafkaClusterCNAMESRecordBatch, List.mem_append, List.mem_cons,
        List.not_mem_nil, or_false, List.mem_map, List.mem_range] at hc
      rcases hc with (rfl | rfl) | ⟨i, -, rfl⟩
      exacts [⟨_, rfl⟩, ⟨_, rfl⟩, ⟨_, rfl⟩]
    obtain ⟨nm, rfl⟩ := hshape
    exact ⟨rfl, rfl, rfl, rfl⟩

/-- Configuration with three brokers, used to instantiate the C6 theorem. -/
def cfgThreeBrokers : KafkaConfig :=
  { kafkaCapacity := { maxCapacity := 10 }
    enableQuotaService := false
    defaultKafkaVersion := "2.7.0"
    enableKafkaExternalCertificate := true
    kafkaDomainName := "kafka.example.com"
    numOfBrokers := 3
    kafkaLifespan := { longLivedKafkas := [] } }

/-- Witness for C6: with three brokers a CREATE action yields exactly five
record changes, and the first change carries TTL 300 and the
`elb.`-prefixed ingress. -/
theorem buildKafkaClusterCNAMESRecordBatch_shape_witness :
    (buildKafkaClusterCNAMESRecordBatch "boot" "ing" "CREATE" cfgThreeBrokers).changes.length = 5
    ∧ (buildResourceRecordChange "boot" "elb.ing" "CREATE").resourceRecordSet.ttl = 300
    ∧ (buildResourceRecordChange "boot" "elb.ing" "CREATE").resourceRecordSet.resourceRecords
        = [{ value := "elb.ing" }] := by
  have h := buildKafkaClusterCNAMESRecordBatch_shape "boot" "ing" "CREATE" cfgThreeBrokers
  have hm : buildResourceRecordChange "boot" "elb.ing" "CREATE"
      ∈ (buildKafkaClusterCNAMESRecordBatch "boot" "ing" "CREATE" cfgThreeBrokers).changes := by
    decide
  exact ⟨h.1, (h.2.2 _ hm).2.2.1, (h.2.2 _ hm).2.2.2⟩

/-- C2. `UpdateStatus` on a stored record: a Deprovision record moving to
anything but Deleting is rejected with `attempted = false` and no write;
a transition to the current status is rejected with `attempted = false`
and no write; otherwise the new status is persisted unconditionally and
`attempted = true`. -/
theorem updateStatus_guard (db : List KafkaRequest) (id : String)
    (status : KafkaStatus) (kafka : KafkaRequest)
    (hget : getById db id = Except.ok kafka) :
    (kafka.status = KafkaStatus.deprovision.str ∧ status ≠ KafkaStatus.deleting →
        updateStatus db id status = ((false, some ServiceError.general), db))
    ∧ (kafka.status = status.str →
        updateStatus db id status = ((false, some ServiceError.general), db))
    ∧ (¬(kafka.status = KafkaStatus.deprovision.str ∧ status ≠ KafkaStatus.deleting) →
        kafka.status ≠ status.str →
        updateStatus db id status =
          ((true, none),
            db.map fun r =>
              if r.id = id ∧ r.deletedAt.isNone then { r with status := status.str }
              else r)) := by
  refine ⟨fun h => ?_, fun h => ?_, fun h1 h2 => ?_⟩ <;> simp only [updateStatus, hget]
  · rw [if_pos h]
  · by_cases ha : kafka.status = KafkaStatus.deprovision.str ∧ status ≠ KafkaStatus.deleting
    · rw [if_pos ha]
    · rw [if_neg ha, if_pos h]
  · rw [if_neg h1, if_neg h2]

/-- An accepted live row, used to instantiate status-guard theorems. -/
def rowAccepted : KafkaRequest :=
  { blankKafkaRequest with id := "a", owner := "u", status := "accepted" }

/-- Witness for C2: an accepted record moves to Deprovision with
`attempted = true` and the status persisted. -/
theorem updateStatus_guard_witness :
    updateStatus [rowAccepted] "a" KafkaStatus.deprovision =
      ((true, none),
        [rowAccepted].map fun r =>
          if r.id = "a" ∧ r.deletedAt.isNone
          then { r with status := KafkaStatus.deprovision.str } else r) :=
  (updateStatus_guard [rowAccepted] "a" KafkaStatus.deprovision rowAccepted rfl).2.2
    (by decide) (by decide)

/-- C10. When the initial fetch inside `UpdateStatus` fails (record absent
or invalid id), `UpdateStatus` returns `attempted = true` together with an
error although no write occurred. -/
theorem updateStatus_fetchFailure (db : List KafkaRequest) (id : String)
    (status : KafkaStatus) (e : ServiceError)
    (hget : getById db id = Except.error e) :
    updateStatus db id status = ((true, some ServiceError.general), db) := by
  unfold updateStatus
  rw [hget]

/-- Witness for C10: on an empty store the fetch fails and `UpdateStatus`
reports `attempted = true` with an error and no write. -/
theorem updateStatus_fetchFailure_witness :
    updateStatus [] "x" KafkaStatus.deleting = ((true, some ServiceError.general), []) :=
  updateStatus_fetchFailure [] "x" KafkaStatus.deleting ServiceError.notFound rfl

/-- C9. The field-scoped `Update` leaves every row whose status is a
deletion status entirely unchanged and returns success; consequently the
final persistence step of `PrepareKafkaRequest` also leaves such rows
unchanged. -/
theorem update_skipsDeletionStatuses (db : List KafkaRequest) (req : KafkaRequest) :
    (update db req).1 = none
    ∧ (∀ (i : Nat) (r : KafkaRequest), db[i]? = some r → r.status ∈ kafkaDeletionStatuses →
        (update db req).2[i]? = some r)
    ∧ (∀ (cfg : KafkaConfig) (kcfg : KeycloakConfig) (nres dres sres : Except Unit String)
        (dnsres : Except Unit Unit) (i : Nat) (r : KafkaRequest), db[i]? = some r →
        r.status ∈ kafkaDeletionStatuses →
        (prepareKafkaRequest cfg kcfg nres dres sres dnsres db req).2.1[i]? = some r) := by
  refine ⟨rfl, fun i r hr hs => update_keeps_deletion_row db req i r hr hs, ?_⟩
  intro cfg kcfg nres dres sres dnsres i r hr hs
  rcases prepare_db_cases cfg kcfg nres dres sres dnsres db req with h | ⟨u, h⟩
  · rw [h, hr]
  · rw [h]
    exact update_keeps_deletion_row db u i r hr hs

/-- A deprovisioning live row, used to instantiate the C9 theorem. -/
def rowDeprovision : KafkaRequest :=
  { blankKafkaRequest with id := "a", owner := "u", status := "deprovision" }

/-- Witness for C9: a deprovisioning row survives an `Update` aimed at it
unchanged. -/
theorem update_skipsDeletionStatuses_witness :
    (update [rowDeprovision]
        { blankKafkaRequest with id := "a", status := "provisioning" }).2[0]?
      = some rowDeprovision :=
  (update_skipsDeletionStatuses [rowDeprovision]
      { blankKafkaRequest with id := "a", status := "provisioning" }).2.1 0 rowDeprovision
    rfl (by decide)

/-- C1. Admission: with the live record count at or above the ceiling,
`RegisterKafkaJob` returns the too-many-instances error and persists
nothing; below the ceiling — quota allowed when enforcement is on — the
fresh request is persisted exactly once, with status Accepted and the
configured default version. -/
theorem registerKafkaJob_admission (cfg : KafkaConfig) (quotaResult : Except Unit Bool)
    (db : List KafkaRequest) (req : KafkaRequest) :
    (cfg.kafkaCapacity.maxCapacity ≤ (countLive db : Int) →
        registerKafkaJob cfg quotaResult db req =
          (some ServiceError.tooManyKafkaInstancesReached, db, []))
    ∧ ((countLive db : Int) < cfg.kafkaCapacity.maxCapacity →
        (cfg.enableQuotaService = true → quotaResult = Except.ok true) →
        (∀ r ∈ db, r.id ≠ req.id) →
        registerKafkaJob cfg quotaResult db req =
          (none,
            db ++ [{ req with
              version := cfg.defaultKafkaVersion
              status := KafkaStatus.accepted.str }],
            [ExtEvent.metricStatusSinceCreated KafkaStatus.accepted.str req.id
              req.clusterID])) := by
  constructor
  · intro h
    have hc : hasAvailableCapacity cfg db = false := by
      simp [hasAvailableCapacity, not_lt.mpr h]
    simp [registerKafkaJob, hc]
  · intro h hq hfresh
    have hc : hasAvailableCapacity cfg db = true := by
      simp [hasAvailableCapacity, h]
    have hsave : save db { req with
        version := cfg.defaultKafkaVersion
        status := KafkaStatus.accepted.str } =
        db ++ [{ req with
          version := cfg.defaultKafkaVersion
          status := KafkaStatus.accepted.str }] := by
      unfold save
      rw [if_neg]
      simp only [List.any_eq_true, beq_iff_eq, not_exists, not_and]
      intro r hr
      exact fun he => hfresh r hr he
    cases hqcfg : cfg.enableQuotaService
    · simp [registerKafkaJob, hc, hqcfg, hsave]
    · rw [hq hqcfg]
      simp [registerKafkaJob, hc, hqcfg, hsave]

/-- Request and configuration used to instantiate the admission theorems. -/
def cfgQuotaOn : KafkaConfig :=
  { kafkaCapacity := { maxCapacity := 10 }
    enableQuotaService := true
    defaultKafkaVersion := "2.7.0"
    enableKafkaExternalCertificate := false
    kafkaDomainName := "kafka.example.com"
    numOfBrokers := 3
    kafkaLifespan := { longLivedKafkas := [] } }

/-- A fresh admission request, used to instantiate the admission theorems. -/
def reqFresh : KafkaRequest :=
  { blankKafkaRequest with id := "new1", owner := "u1", clusterID := "c1" }

/-- Witness for C1: on an empty store with ceiling 10 and the quota
allowed, the request is persisted once with status Accepted and the
default version. -/
theorem registerKafkaJob_admission_witness :
    registerKafkaJob cfgQuotaOn (Except.ok true) [] reqFresh =
      (none,
        [] ++ [{ reqFresh with
          version := cfgQuotaOn.defaultKafkaVersion
          status := KafkaStatus.accepted.str }],
        [ExtEvent.metricStatusSinceCreated KafkaStatus.accepted.str reqFresh.id
          reqFresh.clusterID]) :=
  (registerKafkaJob_admission cfgQuotaOn (Except.ok true) [] reqFresh).2 (by decide)
    (fun _ => rfl) (by simp)

/-- C3. With quota enforcement enabled and capacity available: a denied
reservation makes `RegisterKafkaJob` return the insufficient-quota error
with no row persisted and no external side effect; a failed authority
call likewise persists nothing and returns an error. -/
theorem registerKafkaJob_quotaGate (cfg : KafkaConfig) (quotaResult : Except Unit Bool)
    (db : List KafkaRequest) (req : KafkaRequest)
    (hcap : (countLive db : Int) < cfg.kafkaCapacity.maxCapacity)
    (hq : cfg.enableQuotaService = true) :
    (quotaResult = Except.ok false →
        registerKafkaJob cfg quotaResult db req =
          (some ServiceError.insufficientQuota, db, []))
    ∧ (quotaResult = Except.error () →
        registerKafkaJob cfg quotaResult db req =
          (some ServiceError.failedToCheckQuota, db, [])) := by
  have hc : hasAvailableCapacity cfg db = true := by
    simp [hasAvailableCapacity, hcap]
  refine ⟨fun hden => ?_, fun herr => ?_⟩ <;> subst quotaResult <;>
    simp [registerKafkaJob, hc, hq]

/-- Witness for C3: a denied reservation on a store with room yields the
insufficient-quota error, the unchanged store and an empty event trace. -/
theorem registerKafkaJob_quotaGate_witness :
    registerKafkaJob cfgQuotaOn (Except.ok false) [rowAccepted] reqFresh =
      (some ServiceError.insufficientQuota, [rowAccepted], []) :=
  (registerKafkaJob_quotaGate cfgQuotaOn (Except.ok false) [rowAccepted] reqFresh
    (by decide) rfl).1 rfl

/-- C7. `DeprovisionExpiredKafkas` moves exactly the live records that are
at least `kafkaAgeInHours` old, are not already in a deletion status and
are not in the long-lived exemption list to Deprovision; an exempted
record keeps its status (and all other fields) regardless of age. -/
theorem deprovisionExpiredKafkas_spec (cfg : KafkaConfig) (now kafkaAgeInHours : Int)
    (db : List KafkaRequest) :
    (deprovisionExpiredKafkas cfg now kafkaAgeInHours db).1 = none
    ∧ (deprovisionExpiredKafkas cfg now kafkaAgeInHours db).2.1 =
        db.map (fun r =>
          if r.deletedAt = none ∧ r.createdAt ≤ now - kafkaAgeInHours * 3600
              ∧ r.status ∉ kafkaDeletionStatuses
              ∧ r.id ∉ cfg.kafkaLifespan.longLivedKafkas then
            { r with status := KafkaStatus.deprovision.str }
          else r)
    ∧ (∀ (i : Nat) (r : KafkaRequest), db[i]? = some r →
        r.id ∈ cfg.kafkaLifespan.longLivedKafkas →
        (deprovisionExpiredKafkas cfg now kafkaAgeInHours db).2.1[i]? = some r) := by
  have hmap : (deprovisionExpiredKafkas cfg now kafkaAgeInHours db).2.1 =
      db.map (fun r =>
        if r.deletedAt = none ∧ r.createdAt ≤ now - kafkaAgeInHours * 3600
            ∧ r.status ∉ kafkaDeletionStatuses
            ∧ r.id ∉ cfg.kafkaLifespan.longLivedKafkas then
          { r with status := KafkaStatus.deprovision.str }
        else r) := by
    unfold deprovisionExpiredKafkas
    dsimp only
    refine congrArg (fun f => List.map f db) (funext fun r => ?_)
    rcases hll : cfg.kafkaLifespan.longLivedKafkas with _ | ⟨x, xs⟩
    · apply if_congr _ rfl rfl
      simp [Option.isNone_iff_eq_none]
    · apply if_congr _ rfl rfl
      simp [Option.isNone_iff_eq_none]
  refine ⟨rfl, hmap, fun i r hr hll => ?_⟩
  rw [hmap]
  simp only [List.getElem?_map, hr, Option.map_some']
  rw [if_neg]
  intro h
  exact h.2.2.2 hll

/-- Configuration with a long-lived exemption list, used to instantiate
the C7 theorem. -/
def cfgLongLived : KafkaConfig :=
  { kafkaCapacity := { maxCapacity := 10 }
    enableQuotaService := false
    defaultKafkaVersion := "2.7.0"
    enableKafkaExternalCertificate := false
    kafkaDomainName := "kafka.example.com"
    numOfBrokers := 3
    kafkaLifespan := { longLivedKafkas := ["ll1"] } }

/-- An old ready record on the exemption list, used to instantiate the C7
theorem. -/
def rowLongLived : KafkaRequest :=
  { blankKafkaRequest with id := "ll1", owner := "u", status := "ready", createdAt := 0 }

/-- Witness for C7: a record far older than 48 hours but on the exemption
list keeps its status unchanged. -/
theorem deprovisionExpiredKafkas_spec_witness :
    (deprovisionExpiredKafkas cfgLongLived 1000000 48 [rowLongLived]).2.1[0]?
      = some rowLongLived :=
  (deprovisionExpiredKafkas_spec cfgLongLived 1000000 48 [rowLongLived]).2.2 0
    rowLongLived rfl (by decide)

/-- C5. A cleanup-phase failure leaves the persisted state unchanged: an
SSO client creation failure makes `PrepareKafkaRequest` return the
distinct SSO-creation error without touching the store, and a failure of
`Delete`'s identity-client deletion or DNS record removal for a record
with an assigned cluster returns an error without soft-deleting the row. -/
theorem cleanupFailure_leavesStateUnchanged (cfg : KafkaConfig) (kcfg : KeycloakConfig)
    (nres dres sres : Except Unit String) (dnsres ssoDeregRes dnsres2 : Except Unit Unit)
    (now : Int) (db : List KafkaRequest) (req : KafkaRequest) (n d : String) :
    (nres = Except.ok n → dres = Except.ok d →
      (cfg.enableKafkaExternalCertificate = true → dnsres = Except.ok ()) →
      kcfg.enableAuthenticationOnKafka = true → sres = Except.error () →
      (prepareKafkaRequest cfg kcfg nres dres sres dnsres db req).1
          = some ServiceError.failedToCreateSSOClient
        ∧ (prepareKafkaRequest cfg kcfg nres dres sres dnsres db req).2.1 = db)
    ∧ (req.clusterID ≠ "" → kcfg.enableAuthenticationOnKafka = true →
        ssoDeregRes = Except.error () →
        (deleteKafka cfg kcfg dres ssoDeregRes dnsres2 now db req).1
            = some ServiceError.general
          ∧ (deleteKafka cfg kcfg dres ssoDeregRes dnsres2 now db req).2.1 = db)
    ∧ (req.clusterID ≠ "" → cfg.enableKafkaExternalCertificate = true →
        (kcfg.enableAuthenticationOnKafka = true → ssoDeregRes = Except.ok ()) →
        dres = Except.ok d → dnsres2 = Except.error () →
        (deleteKafka cfg kcfg dres ssoDeregRes dnsres2 now db req).1
            = some ServiceError.general
          ∧ (deleteKafka cfg kcfg dres ssoDeregRes dnsres2 now db req).2.1 = db) := by
  refine ⟨fun hn hd hdns hauth hsso => ?_, fun hcl hauth hsd => ?_,
    fun hcl hcert hsdok hd hdns2 => ?_⟩
  · subst hn hd hsso
    by_cases hcert : cfg.enableKafkaExternalCertificate = true
    · have hv := hdns hcert
      subst hv
      simp [prepareKafkaRequest, hcert, hauth, changeKafkaCNAMErecords]
    · simp [prepareKafkaRequest, hcert, hauth]
  · subst hsd
    simp [deleteKafka, hcl, hauth]
  · subst hd hdns2
    by_cases hauth : kcfg.enableAuthenticationOnKafka = true
    · have hv := hsdok hauth
      subst hv
      simp [deleteKafka, hcl, hauth, hcert, changeKafkaCNAMErecords]
    · simp [deleteKafka, hcl, hauth, hcert, changeKafkaCNAMErecords]

/-- Keycloak configuration with auth-on-resource enabled. -/
def kcfgAuthOn : KeycloakConfig := { enableAuthenticationOnKafka := true }

/-- Keycloak configuration with auth-on-resource disabled. -/
def kcfgAuthOff : KeycloakConfig := { enableAuthenticationOnKafka := false }

/-- A live accepted record with an assigned cluster. -/
def rowK1 : KafkaRequest :=
  { blankKafkaRequest with
    id := "k1"
    owner := "u1"
    status := "accepted"
    clusterID := "c1" }

/-- The in-memory request matching `rowK1`. -/
def reqK1 : KafkaRequest :=
  { blankKafkaRequest with id := "k1", owner := "u1", clusterID := "c1" }

/-- Witness for C5: a failing identity-client deletion makes `Delete`
return an error and leave the store untouched. -/
theorem cleanupFailure_leavesStateUnchanged_witness :
    (deleteKafka cfgQuotaOn kcfgAuthOn (Except.ok "apps.example.com") (Except.error ())
        (Except.ok ()) 5 [rowK1] reqK1).1 = some ServiceError.general
    ∧ (deleteKafka cfgQuotaOn kcfgAuthOn (Except.ok "apps.example.com") (Except.error ())
        (Except.ok ()) 5 [rowK1] reqK1).2.1 = [rowK1] :=
  (cleanupFailure_leavesStateUnchanged cfgQuotaOn kcfgAuthOn (Except.ok "apps.example.com")
    (Except.ok "apps.example.com") (Except.ok "") (Except.ok ()) (Except.error ())
    (Except.ok ()) 5 [rowK1] reqK1 "" "apps.example.com").2.1 (by decide) rfl rfl

/-- The field-scoped `Update` applies a non-empty bootstrap host and a
non-empty status to a matching live row outside the deletion statuses. -/
theorem update_row_projections (db : List KafkaRequest) (u : KafkaRequest)
    (i : Nat) (r : KafkaRequest) (hr : db[i]? = some r) (hid : r.id = u.id)
    (hlive : r.deletedAt = none) (hst : r.status ∉ kafkaDeletionStatuses) :
    ∃ r2, (update db u).2[i]? = some r2
      ∧ (u.bootstrapServerHost ≠ "" → r2.bootstrapServerHost = u.bootstrapServerHost)
      ∧ (u.status ≠ "" → r2.status = u.status) := by
  refine ⟨applyNonZeroFields r u, ?_, fun h => ?_, fun h => ?_⟩
  · unfold update
    simp only [List.getElem?_map, hr, Option.map_some']
    rw [if_pos ⟨hid, by simp [hlive], hst⟩]
  · simp [applyNonZeroFields, h]
  · simp [applyNonZeroFields, h]

/-- On a successful `PrepareKafkaRequest` run, the returned store is the
field-scoped `Update` of an update record whose bootstrap host follows
the external-certificate mode and whose status is Provisioning; in
external-certificate mode the CREATE CNAME batch was submitted. -/
theorem prepare_success_shape (cfg : KafkaConfig) (kcfg : KeycloakConfig)
    (sres : Except Unit String) (dnsres : Except Unit Unit)
    (db db2 : List KafkaRequest) (req : KafkaRequest)
    (n d : String) (evs : List ExtEvent)
    (hok : prepareKafkaRequest cfg kcfg (Except.ok n) (Except.ok d) sres dnsres db req
      = (none, db2, evs)) :
    ∃ cid secret,
      db2 = (update db { blankKafkaRequest with
          id := req.id
          bootstrapServerHost :=
            if cfg.enableKafkaExternalCertificate then n ++ "." ++ cfg.kafkaDomainName
            else n ++ "." ++ replaceOnce d defaultIngressDnsNameStart
              managedKafkaIngressDnsNameStart
          ssoClientID := cid
          ssoClientSecret := secret
          status := KafkaStatus.provisioning.str }).2
      ∧ (cfg.enableKafkaExternalCertificate = true →
          ExtEvent.dnsChange cfg.kafkaDomainName
            (buildKafkaClusterCNAMESRecordBatch (n ++ "." ++ cfg.kafkaDomainName)
              (replaceOnce d defaultIngressDnsNameStart managedKafkaIngressDnsNameStart)
              "CREATE" cfg) ∈ evs) := by
  cases hcert : cfg.enableKafkaExternalCertificate <;>
    cases hauth : kcfg.enableAuthenticationOnKafka <;>
    rcases sres with u | secret <;>
    rcases dnsres with v | v <;>
    simp only [prepareKafkaRequest, changeKafkaCNAMErecords, update, hcert, hauth,
      Bool.false_eq_true, if_true, if_false, Prod.mk.injEq, reduceCtorEq,
      false_and, true_and, and_true, reduceIte] at hok <;>
    · obtain ⟨hdb2, hevs⟩ := hok
      subst hevs
      simp only [Bool.false_eq_true, reduceIte]
      exact ⟨_, _, hdb2.symm, by simp⟩

/-- C4 (amended). On a successful `PrepareKafkaRequest` run for a record
whose stored row exists, is live and is not in a deletion status: with
external-certificate mode disabled the persisted bootstrap host is
`<normalized-identifier>.<suffix>` with the suffix's default ingress
prefix rewritten once to the managed-ingress prefix and the persisted
status becomes Provisioning; with external-certificate mode enabled the
host instead uses the fleet's public Kafka domain and the CNAME CREATE
batch is additionally submitted. -/
theorem prepareKafkaRequest_hostAssignment (cfg : KafkaConfig) (kcfg : KeycloakConfig)
    (sres : Except Unit String) (dnsres : Except Unit Unit)
    (db db2 : List KafkaRequest) (req : KafkaRequest)
    (n d : String) (evs : List ExtEvent)
    (hok : prepareKafkaRequest cfg kcfg (Except.ok n) (Except.ok d) sres dnsres db req
      = (none, db2, evs)) :
    (cfg.enableKafkaExternalCertificate = false →
      ∀ (i : Nat) (r : KafkaRequest), db[i]? = some r → r.id = req.id →
        r.deletedAt = none → r.status ∉ kafkaDeletionStatuses →
        ∃ r2, db2[i]? = some r2
          ∧ r2.bootstrapServerHost =
              n ++ "." ++ replaceOnce d defaultIngressDnsNameStart
                managedKafkaIngressDnsNameStart
          ∧ r2.status = KafkaStatus.provisioning.str)
    ∧ (cfg.enableKafkaExternalCertificate = true →
        ExtEvent.dnsChange cfg.kafkaDomainName
          (buildKafkaClusterCNAMESRecordBatch (n ++ "." ++ cfg.kafkaDomainName)
            (replaceOnce d defaultIngressDnsNameStart managedKafkaIngressDnsNameStart)
            "CREATE" cfg) ∈ evs
        ∧ ∀ (i : Nat) (r : KafkaRequest), db[i]? = some r → r.id = req.id →
            r.deletedAt = none → r.status ∉ kafkaDeletionStatuses →
            ∃ r2, db2[i]? = some r2
              ∧ r2.bootstrapServerHost = n ++ "." ++ cfg.kafkaDomainName
              ∧ r2.status = KafkaStatus.provisioning.str) := by
  obtain ⟨cid, secret, hdb2, hdns⟩ :=
    prepare_success_shape cfg kcfg sres dnsres db db2 req n d evs hok
  set u : KafkaRequest := { blankKafkaRequest with
    id := req.id
    bootstrapServerHost :=
      if cfg.enableKafkaExternalCertificate then n ++ "." ++ cfg.kafkaDomainName
      else n ++ "." ++ replaceOnce d defaultIngressDnsNameStart
        managedKafkaIngressDnsNameStart
    ssoClientID := cid
    ssoClientSecret := secret
    status := KafkaStatus.provisioning.str } with hu
  have hidu : u.id = req.id := by rw [hu]
  have hsu : u.status = KafkaStatus.provisioning.str := by rw [hu]
  have hsne : u.status ≠ "" := by rw [hsu]; decide
  constructor
  · intro hcert i r hr hid hlive hst
    have hbs : u.bootstrapServerHost =
        n ++ "." ++ replaceOnce d defaultIngressDnsNameStart
          managedKafkaIngressDnsNameStart := by
      rw [hu]
      simp [hcert]
    obtain ⟨r2, hr2, hhost, hstat⟩ :=
      update_row_projections db u i r hr (by rw [hidu]; exact hid) hlive hst
    rw [hdb2]
    refine ⟨r2, hr2, ?_, ?_⟩
    · rw [hhost (by rw [hbs]; exact append_dot_ne_empty _ _), hbs]
    · rw [hstat hsne, hsu]
  · intro hcert
    refine ⟨hdns hcert, fun i r hr hid hlive hst => ?_⟩
    have hbs : u.bootstrapServerHost = n ++ "." ++ cfg.kafkaDomainName := by
      rw [hu]
      simp [hcert]
    obtain ⟨r2, hr2, hhost, hstat⟩ :=
      update_row_projections db u i r hr (by rw [hidu]; exact hid) hlive hst
    rw [hdb2]
    refine ⟨r2, hr2, ?_, ?_⟩
    · rw [hhost (by rw [hbs]; exact append_dot_ne_empty _ _), hbs]
    · rw [hstat hsne, hsu]

/-- The result of a concrete successful `PrepareKafkaRequest` run with
external-certificate mode disabled, used to instantiate the C4 theorem. -/
def prepConcrete : Option ServiceError × List KafkaRequest × List ExtEvent :=
  prepareKafkaRequest cfgQuotaOn kcfgAuthOff (Except.ok "name1")
    (Except.ok "apps.example.com") (Except.ok "") (Except.ok ()) [rowK1] reqK1

/-- Witness for C4: on a live accepted row the persisted host is the
normalized identifier dotted with the rewritten suffix, and the status
becomes Provisioning. -/
theorem prepareKafkaRequest_hostAssignment_witness :
    ∃ r2, prepConcrete.2.1[0]? = some r2
      ∧ r2.bootstrapServerHost =
          "name1" ++ "." ++ replaceOnce "apps.example.com" defaultIngressDnsNameStart
            managedKafkaIngressDnsNameStart
      ∧ r2.status = KafkaStatus.provisioning.str :=
  (prepareKafkaRequest_hostAssignment cfgQuotaOn kcfgAuthOff (Except.ok "") (Except.ok ())
      [rowK1] prepConcrete.2.1 reqK1 "name1" "apps.example.com" prepConcrete.2.2
      (by decide)).1 rfl 0 rowK1 rfl rfl rfl (by decide)

/-- A live record with an assigned cluster already in Deprovision status. -/
def rowDeprovisionK1 : KafkaRequest :=
  { blankKafkaRequest with
    id := "k1"
    owner := "u1"
    status := "deprovision"
    clusterID := "c1" }

/-- Counterexample for C4 as frozen: `PrepareKafkaRequest` succeeds on a
record with an assigned cluster id and external-certificate mode
disabled, yet the persisted status stays Deprovision instead of becoming
Provisioning, because the final field-scoped update skips rows in
deletion statuses. -/
theorem prepareKafkaRequest_hostAssignment_counterexample :
    (prepareKafkaRequest cfgQuotaOn kcfgAuthOff (Except.ok "name1")
        (Except.ok "apps.example.com") (Except.ok "") (Except.ok ())
        [rowDeprovisionK1] reqK1).1 = none
    ∧ ((prepareKafkaRequest cfgQuotaOn kcfgAuthOff (Except.ok "name1")
        (Except.ok "apps.example.com") (Except.ok "") (Except.ok ())
        [rowDeprovisionK1] reqK1).2.1).map (fun r => r.status) = ["deprovision"]
    ∧ KafkaStatus.provisioning.str = "provisioning" := by decide

/-- C8 (amended). After the owner-scoped fetch succeeds,
`RegisterKafkaDeprovisionJob` always emits the total-operations
deprovision metric, and emits the success deprovision metric and the
status-duration deprovision metric exactly when the §4.5 transition
executed without error. -/
theorem registerKafkaDeprovisionJob_metrics (db : List KafkaRequest) (user id : String)
    (kafka : KafkaRequest) (hid : id ≠ "")
    (hfind : (liveRows db).find? (fun r => r.id == id && r.owner == user) = some kafka) :
    ExtEvent.metricTotalDeprovision ∈ (registerKafkaDeprovisionJob db user id).2.2
    ∧ (ExtEvent.metricSuccessDeprovision ∈ (registerKafkaDeprovisionJob db user id).2.2 ↔
        (updateStatus db id KafkaStatus.deprovision).1 = (true, none))
    ∧ (ExtEvent.metricStatusSinceCreated KafkaStatus.deprovision.str kafka.id
          kafka.clusterID ∈ (registerKafkaDeprovisionJob db user id).2.2 ↔
        (updateStatus db id KafkaStatus.deprovision).1 = (true, none)) := by
  rcases hupd : updateStatus db id KafkaStatus.deprovision with ⟨⟨executed, errOpt⟩, db3⟩
  cases executed <;> rcases errOpt with _ | e <;>
    simp [registerKafkaDeprovisionJob, hid, hfind, hupd]

/-- Witness for C8: on an accepted record the transition executes and the
success and status-duration metrics are emitted. -/
theorem registerKafkaDeprovisionJob_metrics_witness :
    ExtEvent.metricTotalDeprovision
        ∈ (registerKafkaDeprovisionJob [rowAccepted] "u" "a").2.2
    ∧ (ExtEvent.metricSuccessDeprovision
          ∈ (registerKafkaDeprovisionJob [rowAccepted] "u" "a").2.2 ↔
        (updateStatus [rowAccepted] "a" KafkaStatus.deprovision).1 = (true, none))
    ∧ (ExtEvent.metricStatusSinceCreated KafkaStatus.deprovision.str rowAccepted.id
          rowAccepted.clusterID ∈ (registerKafkaDeprovisionJob [rowAccepted] "u" "a").2.2 ↔
        (updateStatus [rowAccepted] "a" KafkaStatus.deprovision).1 = (true, none)) :=
  registerKafkaDeprovisionJob_metrics [rowAccepted] "u" "a" rowAccepted (by decide) rfl

/-- Counterexample for C8 as frozen: on a record already in Deprovision
status the transition is not attempted (`attempted = false`), yet the
total-operations deprovision metric has already been emitted — the claim
that no deprovision operation metric is emitted is false. -/
theorem registerKafkaDeprovisionJob_metrics_counterexample :
    (updateStatus [rowDeprovision] "a" KafkaStatus.deprovision).1.1 = false
    ∧ (registerKafkaDeprovisionJob [rowDeprovision] "u" "a").2.2
        = [ExtEvent.metricTotalDeprovision] := by decide

end KasFleetManager
